import Mathlib

/-!
Verification of the numato 8-channel USB GPIO driver (`gpio.py`).

The development shallowly embeds the driver's line assembler, response
classifier, command encoder and device facade.  Python byte strings are
modelled as `List Nat` (one `Nat` per byte), Python text strings as
`List Char` (one `Char` per code point), and the serial transport as a
`Port` record holding the queue of pending `readline` results together
with the log of byte strings written so far.  A facade operation maps a
`Port` to `Option (Except PyErr r × Port)`: the outer `Option` is `none`
when the Python code would loop forever polling an exhausted transport
(the `while not line: line = readline()` spin), and `Except` carries the
`AssertionError`/`ValueError` exceptions the code can raise.
-/

/-- One raw line as returned by `serial.Serial.readline`: a byte string,
empty when the non-blocking read produced no data. -/
abbrev Line := List Nat

/-- A Python text string, one entry per code point. -/
abbrev PyStr := List Char

/-- The exceptions the driver can raise: `assert` failures in
`GPIO._read`/`GPIO._consume`, and `ValueError` from `int(...)`. -/
inductive PyErr where
  | assertionError
  | valueError
deriving DecidableEq, Repr

/-- The serial transport: `pending` holds the upcoming results of
`readline` (after they run out, `readline` keeps returning the empty
byte string), `written` logs every byte string passed to `write`. -/
structure Port where
  pending : List Line
  written : List PyStr
deriving DecidableEq, Repr

/-- Model of `serial.Serial.readline` with `timeout=0`: pop the next
pending line, or return the empty byte string when nothing is buffered. -/
def readline (p : Port) : Line × Port :=
  match p.pending with
  | [] => ([], p)
  | l :: rest => (l, { p with pending := rest })

/-- Model of Python `bool(v)` on an int: nonzero is truthy. -/
def pyBool (v : Int) : Bool := v != 0

/-- Model of Python `v >> n` on ints (arithmetic shift; for a nonnegative
shift it is floor division by `2 ^ n`, which `Int.shiftRight` matches). -/
def py_rshift (v : Int) (n : Int) : Int := v >>> n

/-- Model of Python `str(v)` on an int: decimal digits, `-` sign. -/
def py_str_int (v : Int) : PyStr := (toString v).data

/-- Lowercase base-16 digit string of a natural number, as produced by
Python `format(n, 'x')` (via `Nat.toDigits`, whose digit characters are
`0`-`9` then lowercase `a`-`f`). -/
def pyHexLower (n : Nat) : PyStr := Nat.toDigits 16 n

/-- Model of the Python format spec `'02x'` (`f'{v:02x}'`): lowercase
hex, zero padded to width 2, with sign-aware padding for negatives. -/
def pyFormat02x (v : Int) : PyStr :=
  if v < 0 then
    let ds := pyHexLower v.natAbs
    '-' :: (List.replicate (1 - ds.length) '0' ++ ds)
  else
    let ds := pyHexLower v.toNat
    List.replicate (2 - ds.length) '0' ++ ds

/-- Model of the Python format spec `'08'` (`f'{v:08}'`): decimal, zero
padded to width 8, with sign-aware padding for negatives. -/
def pyFormat08d (v : Int) : PyStr :=
  if v < 0 then
    let ds := Nat.toDigits 10 v.natAbs
    '-' :: (List.replicate (7 - ds.length) '0' ++ ds)
  else
    let ds := Nat.toDigits 10 v.toNat
    List.replicate (8 - ds.length) '0' ++ ds

/-- ASCII whitespace bytes that Python `int(bytes)` strips. -/
def isPySpace (b : Nat) : Bool :=
  b == 32 || b == 9 || b == 10 || b == 13 || b == 11 || b == 12

/-- Value of one ASCII digit byte (`0-9`, `a-z`, `A-Z`), if any. -/
def digitValue (b : Nat) : Option Nat :=
  if 48 ≤ b ∧ b ≤ 57 then some (b - 48)
  else if 97 ≤ b ∧ b ≤ 122 then some (b - 87)
  else if 65 ≤ b ∧ b ≤ 90 then some (b - 55)
  else none

/-- Accumulate the digit bytes of `bs` in base `base`; `none` when a
byte is not a digit of that base or the list is empty. -/
def digitsValue (base : Nat) (bs : List Nat) : Option Nat :=
  match bs with
  | [] => none
  | _ :: _ =>
    bs.foldl
      (fun acc b =>
        match acc, digitValue b with
        | some n, some d => if d < base then some (n * base + d) else none
        | _, _ => none)
      (some 0)

/-- Model of Python `int(bytes, base)` as used on the driver's payloads:
strip surrounding ASCII whitespace, optional sign, then digits of the
given base; everything else is a `ValueError`.  (The model omits Python
extras never sent by the device: `0x` prefixes and `_` separators.) -/
def pyIntParse (base : Nat) (bs : Line) : Except PyErr Int :=
  let t := ((bs.dropWhile isPySpace).reverse.dropWhile isPySpace).reverse
  match t with
  | 45 :: rest =>
    match digitsValue base rest with
    | some n => .ok (-(n : Int))
    | none => .error .valueError
  | 43 :: rest =>
    match digitsValue base rest with
    | some n => .ok (n : Int)
    | none => .error .valueError
  | _ =>
    match digitsValue base t with
    | some n => .ok (n : Int)
    | none => .error .valueError

/-- Second phase of the polling loop in `GPIO._read`/`GPIO._consume`
(`while line: lines.append(line); line = readline()`): collect lines
until an empty read is observed (consuming that empty read) or the
buffered data runs out.  Returns the collected lines and the reads left
unconsumed. -/
def take_nonempty : List Line → List Line × List Line
  | [] => ([], [])
  | l :: rest =>
    if l.isEmpty then ([], rest)
    else
      let p := take_nonempty rest
      (l :: p.1, p.2)

/-- The full polling loop shared by `GPIO._read` and `GPIO._consume`:
skip empty reads until a non-empty line arrives (`while not line`), then
collect non-empty lines until an empty read (`while line`).  `none`
models the infinite spin when every remaining read is empty. -/
def read_lines : List Line → Option (List Line × List Line)
  | [] => none
  | l :: rest =>
    if l.isEmpty then read_lines rest
    else
      let p := take_nonempty rest
      some (l :: p.1, p.2)

/-- The polling loop acting on a `Port` (it only consumes pending reads;
the write log is untouched). -/
def read_lines_port (p : Port) : Option (List Line × Port) :=
  (read_lines p.pending).map fun q => (q.1, { p with pending := q.2 })

namespace Gpio

/-- Response classifier extracted from the tail of `GPIO._read`: require
at least 3 lines (echo, payload, prompt), require the second-to-last
line to start with a carriage-return byte (13) and end with a newline
byte (10), and return it with those two bytes stripped (`lines[-2][1:-1]`).
A failed `assert` raises `AssertionError`. -/
def classify (lines : List Line) : Except PyErr Line :=
  if h : 3 ≤ lines.length then
    let payload := lines.get ⟨lines.length - 2, by omega⟩
    if payload.head? = some 13 then
      if payload.getLast? = some 10 then .ok ((payload.drop 1).dropLast)
      else .error .assertionError
    else .error .assertionError
  else .error .assertionError

/-- Model of `GPIO._write`: append the command text plus the single
carriage-return terminator (`GPIO.ENTER`) to the transport's write log. -/
def _write (s : PyStr) (p : Port) : Port :=
  { p with written := p.written ++ [s ++ [ '\r' ]] }

/-- Model of `GPIO._read`: run the polling loop, then classify the
collected lines. -/
def _read (p : Port) : Option (Except PyErr Line × Port) :=
  (read_lines_port p).map fun q => (classify q.1, q.2)

/-- Model of `GPIO._consume`: run the polling loop, then assert that at
least 2 lines (echo, prompt) arrived; no payload is returned. -/
def _consume (p : Port) : Option (Except PyErr Unit × Port) :=
  (read_lines_port p).map fun q =>
    (if 2 ≤ q.1.length then .ok () else .error .assertionError, q.2)

/-- Model of the `GPIO.value` getter: `gpio readall`, payload parsed as
hexadecimal (`int(line, 16)`). -/
def value_get (p : Port) : Option (Except PyErr Int × Port) :=
  let p1 := _write (("gpio readall").data) p
  (_read p1).map fun q => (q.1.bind (pyIntParse 16), q.2)

/-- Model of the `GPIO.value` setter: `v &= 255`, then
`gpio writeall {v:02x}`, then drain the no-payload response. -/
def value_set (v : Int) (p : Port) : Option (Except PyErr Unit × Port) :=
  let v2 := Int.land v 255
  let p1 := _write (("gpio writeall ").data ++ pyFormat02x v2) p
  _consume p1

/-- Model of `GPIO._gpio_read`: `gpio read {channel}`, payload parsed as
decimal (`int(line)`). -/
def _gpio_read (channel : Int) (p : Port) : Option (Except PyErr Int × Port) :=
  let p1 := _write (("gpio read ").data ++ py_str_int channel) p
  (_read p1).map fun q => (q.1.bind (pyIntParse 10), q.2)

/-- Model of `GPIO._gpio_write`: `cmd = ['clear','set'][bool(b)]`, then
`gpio {cmd} {channel}`, then drain the no-payload response. -/
def _gpio_write (channel : Int) (b : Int) (p : Port) :
    Option (Except PyErr Unit × Port) :=
  let cmd : PyStr := if pyBool b then ("set").data else ("clear").data
  let p1 := _write (("gpio ").data ++ cmd ++ (" ").data ++ py_str_int channel) p
  _consume p1

/-- Model of `GPIO._adc_read`: `adc read {channel}`, payload parsed as
decimal (`int(line)`). -/
def _adc_read (channel : Int) (p : Port) : Option (Except PyErr Int × Port) :=
  let p1 := _write (("adc read ").data ++ py_str_int channel) p
  (_read p1).map fun q => (q.1.bind (pyIntParse 10), q.2)

/-- Model of `ADC_IN.__getitem__`: delegate to `_adc_read` with no
channel validation of its own. -/
def adc_in_getitem (channel : Int) (p : Port) :
    Option (Except PyErr Int × Port) :=
  _adc_read channel p

/-- Model of `DIGIT_IN.__getitem__`: delegate to `_gpio_read` with no
channel validation of its own. -/
def digit_in_getitem (channel : Int) (p : Port) :
    Option (Except PyErr Int × Port) :=
  _gpio_read channel p

/-- Model of `DIGIT_OUT.__setitem__`: delegate to `_gpio_write` with the
value masked to its lowest bit (`bit & 1`), no channel validation. -/
def digit_out_setitem (channel : Int) (bit : Int) (p : Port) :
    Option (Except PyErr Unit × Port) :=
  _gpio_write channel (Int.land bit 1) p

/-- Argument of the `GPIO.id` setter: Python `type(value) == int`
distinguishes int arguments from everything else (modelled as text). -/
inductive PyVal where
  | int (v : Int)
  | str (s : PyStr)

/-- Model of the `GPIO.id` setter: an int argument is first formatted
with `f'{value:08}'`; then `str(value)[:8]` truncates to 8 characters;
`f'id set {value:>8}'` right-justifies the field in 8 characters; the
no-payload response is drained. -/
def id_set (value : PyVal) (p : Port) : Option (Except PyErr Unit × Port) :=
  let s0 : PyStr :=
    match value with
    | .int v => pyFormat08d v
    | .str s => s
  let s1 := s0.take 8
  let field := List.replicate (8 - s1.length) ' ' ++ s1
  let p1 := _write (("id set ").data ++ field) p
  _consume p1

/-- Index used with a `GPIO` object itself: Python checks
`type(channel) == int`, so any non-int key is modelled as `other`. -/
inductive Key where
  | int (n : Int)
  | other

/-- Model of `GPIO.__getitem__`: for an int channel in `range(8)` return
`self.value >> channel & 1`; any other key falls off the end of the
method and silently returns `None` with no transport interaction. -/
def getitem (channel : Key) (p : Port) :
    Option (Except PyErr (Option Int) × Port) :=
  match channel with
  | .int n =>
    if 0 ≤ n ∧ n < 8 then
      (value_get p).map fun q =>
        (q.1.map fun v => Int.land (py_rshift v n) 1, q.2)
    else some (.ok none, p)
  | .other => some (.ok none, p)

/-- Model of `GPIO.__setitem__`: for an int channel in `range(8)` call
`_gpio_write(channel, bit & 1)`; any other key silently does nothing. -/
def setitem (channel : Key) (bit : Int) (p : Port) :
    Option (Except PyErr Unit × Port) :=
  match channel with
  | .int n =>
    if 0 ≤ n ∧ n < 8 then _gpio_write n (Int.land bit 1) p
    else some (.ok (), p)
  | .other => some (.ok (), p)

end Gpio

/-- Outcome of a `with open(port) as g:` block at its caller: the
`contextlib` protocol either lets the block complete (value `some` on a
normal body, `none` when a body exception was swallowed) or re-raises. -/
inductive WithExit (α : Type) where
  | completed (v : Option α)
  | raised (e : PyErr)
deriving DecidableEq, Repr

/-- Model of the `open` context manager around a session body that
produced `body`.  The generator wraps `yield` in
`try: ... except: pass finally: g.close()`, so an exception thrown into
the generator at the `yield` point is caught by the bare `except` and
the generator exits normally; `contextlib` then treats the exception as
suppressed and the `with` statement completes without a value. -/
def open_session {α : Type} (body : Except PyErr α) : WithExit α :=
  match body with
  | .ok a => .completed (some a)
  | .error _ => .completed none

/-- Exit status of the CLI `main` when the session body produced `body`:
the `with` block never re-raises (see `open_session`), `main` falls off
the end, and the interpreter exits with status 0. -/
def cli_exit {α : Type} (body : Except PyErr α) : Nat :=
  match open_session body with
  | .completed _ => 0
  | .raised _ => 1


/-! ## Helper definitions used by the theorem statements -/

/-- Two lowercase hexadecimal digit characters of a byte value, the form
the spec's command table prescribes for `<hex2>` arguments. -/
def hex2 (n : Nat) : PyStr := [Nat.digitChar (n / 16 % 16), Nat.digitChar (n % 16)]

/-! ## Bounds for the Python bitwise operations -/

theorem ldiff_lt_two_pow (m k n : Nat) (h : n < 2 ^ k) : Nat.ldiff n m < 2 ^ k := by
  refine Nat.lt_of_testBit k ?_ Nat.testBit_two_pow_self ?_
  · rw [Nat.testBit_ldiff]
    simp [Nat.testBit_lt_two_pow h]
  · intro j hj
    rw [Nat.testBit_ldiff]
    have hn : n < 2 ^ j := lt_of_lt_of_le h (Nat.pow_le_pow_right (by omega) hj.le)
    simp [Nat.testBit_lt_two_pow hn, Nat.testBit_two_pow_of_ne (Nat.ne_of_lt hj)]

theorem land255_nonneg (v : Int) : 0 ≤ Int.land v 255 := by
  cases v with
  | ofNat m => exact Int.ofNat_nonneg _
  | negSucc m => exact Int.ofNat_nonneg _

theorem land255_lt (v : Int) : Int.land v 255 < 256 := by
  cases v with
  | ofNat m =>
    show (Int.ofNat (m &&& 255)) < 256
    rw [Int.ofNat_eq_coe]
    have : m &&& 255 ≤ 255 := Nat.and_le_right
    omega
  | negSucc m =>
    show (Int.ofNat (Nat.ldiff 255 m)) < 256
    rw [Int.ofNat_eq_coe]
    have : Nat.ldiff 255 m < 2 ^ 8 := ldiff_lt_two_pow m 8 255 (by norm_num)
    omega

theorem land1_cases (v : Int) : Int.land v 1 = 0 ∨ Int.land v 1 = 1 := by
  cases v with
  | ofNat m =>
    show Int.ofNat (m &&& 1) = 0 ∨ Int.ofNat (m &&& 1) = 1
    simp only [Int.ofNat_eq_coe]
    have : m &&& 1 ≤ 1 := Nat.and_le_right
    omega
  | negSucc m =>
    show Int.ofNat (Nat.ldiff 1 m) = 0 ∨ Int.ofNat (Nat.ldiff 1 m) = 1
    simp only [Int.ofNat_eq_coe]
    have : Nat.ldiff 1 m < 2 ^ 1 := ldiff_lt_two_pow m 1 1 (by norm_num)
    omega

/-! ## Formatting lemmas -/

set_option maxRecDepth 8000 in
theorem pyFormat02x_eq_hex2 : ∀ n < 256, pyFormat02x (Int.ofNat n) = hex2 n := by
  decide

set_option maxRecDepth 8000 in
theorem hex2_lowercase : ∀ n < 256, ∀ c ∈ hex2 n, c ∈ ("0123456789abcdef").data := by
  decide

theorem pyFormat02x_land255 (v : Int) :
    pyFormat02x (Int.land v 255) = hex2 (Int.land v 255).toNat := by
  have h0 := land255_nonneg v
  have h1 := land255_lt v
  have hn : (Int.land v 255).toNat < 256 := by omega
  have he : Int.land v 255 = Int.ofNat (Int.land v 255).toNat := by
    rw [Int.ofNat_eq_coe, Int.toNat_of_nonneg h0]
  rw [he]
  exact pyFormat02x_eq_hex2 _ hn

/-! ## Properties of the polling loop -/

theorem take_nonempty_takeWhile (s : List Line) :
    (take_nonempty s).1 = s.takeWhile fun l => !l.isEmpty := by
  induction s with
  | nil => rfl
  | cons l rest ih =>
    by_cases h : l.isEmpty
    · simp [take_nonempty, List.takeWhile_cons, h]
    · simp [take_nonempty, List.takeWhile_cons, h, ih]

theorem take_nonempty_consumed (s : List Line) :
    ∃ consumed, s = consumed ++ (take_nonempty s).2
      ∧ (take_nonempty s).1 = consumed.filter fun l => !l.isEmpty := by
  induction s with
  | nil => exact ⟨[], rfl, rfl⟩
  | cons l rest ih =>
    by_cases h : l.isEmpty
    · refine ⟨[l], ?_, ?_⟩ <;> simp [take_nonempty, h]
    · obtain ⟨c, hc1, hc2⟩ := ih
      refine ⟨l :: c, ?_, ?_⟩
      · simpa [take_nonempty, h] using hc1
      · simp [take_nonempty, List.filter_cons, h, hc2]

theorem read_lines_some (s acc rem : List Line)
    (h : read_lines s = some (acc, rem)) :
    acc ≠ []
    ∧ acc = (s.dropWhile fun l => l.isEmpty).takeWhile (fun l => !l.isEmpty)
    ∧ ∃ consumed, s = consumed ++ rem
        ∧ acc = consumed.filter fun l => !l.isEmpty := by
  induction s with
  | nil => simp [read_lines] at h
  | cons l rest ih =>
    by_cases hl : l.isEmpty
    · have h' : read_lines rest = some (acc, rem) := by
        simpa [read_lines, hl] using h
      obtain ⟨h1, h2, c, hc1, hc2⟩ := ih h'
      refine ⟨h1, ?_, l :: c, ?_, ?_⟩
      · simpa [List.dropWhile_cons, hl] using h2
      · simpa using hc1
      · simp [List.filter_cons, hl, hc2]
    · have hacc : acc = l :: (take_nonempty rest).1 ∧ rem = (take_nonempty rest).2 := by
        have := h
        simp [read_lines, hl] at this
        exact ⟨this.1.symm, this.2.symm⟩
      obtain ⟨c, hc1, hc2⟩ := take_nonempty_consumed rest
      refine ⟨by simp [hacc.1], ?_, l :: c, ?_, ?_⟩
      · rw [hacc.1, List.dropWhile_cons]
        simp [hl, List.takeWhile_cons, take_nonempty_takeWhile]
      · rw [hacc.2]
        simpa using hc1
      · rw [hacc.1]
        simp [List.filter_cons, hl, hc2]

theorem read_lines_none (s : List Line) :
    read_lines s = none ↔ ∀ l ∈ s, l.isEmpty := by
  induction s with
  | nil => simp [read_lines]
  | cons l rest ih =>
    by_cases hl : l.isEmpty
    · have hl' : l = [] := by simpa [List.isEmpty_iff] using hl
      subst hl'
      simp [read_lines, ih, List.forall_mem_cons]
    · constructor
      · intro h
        simp [read_lines, hl] at h
      · intro h
        exact absurd (h l (List.mem_cons_self l rest)) hl

theorem read_lines_port_written (p : Port) (q : List Line × Port)
    (h : read_lines_port p = some q) : q.2.written = p.written := by
  unfold read_lines_port at h
  cases hr : read_lines p.pending with
  | none => rw [hr] at h; simp at h
  | some v =>
    rw [hr] at h
    simp only [Option.map_some', Option.some.injEq] at h
    subst h
    rfl

theorem consume_written (p : Port) (r : Except PyErr Unit) (p' : Port)
    (h : Gpio._consume p = some (r, p')) : p'.written = p.written := by
  unfold Gpio._consume at h
  cases hr : read_lines_port p with
  | none => rw [hr] at h; simp at h
  | some q =>
    rw [hr] at h
    simp at h
    have := read_lines_port_written p q hr
    rw [← h.2]
    exact this

theorem read_resp_written (p : Port) (r : Except PyErr Line) (p' : Port)
    (h : Gpio._read p = some (r, p')) : p'.written = p.written := by
  unfold Gpio._read at h
  cases hr : read_lines_port p with
  | none => rw [hr] at h; simp at h
  | some q =>
    rw [hr] at h
    simp at h
    have := read_lines_port_written p q hr
    rw [← h.2]
    exact this

/-! ## Payload decomposition -/

theorem payload_decomp (l : Line) (hh : l.head? = some 13)
    (hl : l.getLast? = some 10) :
    l = 13 :: ((l.drop 1).dropLast ++ [10]) := by
  obtain ⟨ys, rfl⟩ := List.getLast?_eq_some_iff.mp hl
  cases ys with
  | nil => simp at hh
  | cons b t =>
    have hb : b = 13 := by simpa using hh
    subst hb
    simp [List.dropLast_concat]

/-! ## Decimal formatting length -/

theorem toDigits10_length_le (n : Nat) (h : n < 100000000) :
    (Nat.toDigits 10 n).length ≤ 8 := by
  have hr := Nat.repr_length n 8 (by norm_num) (by simpa using h)
  simpa [Nat.repr, List.asString, String.length] using hr

theorem pyFormat08d_length (v : Int) (h0 : 0 ≤ v) (h8 : v < 100000000) :
    (pyFormat08d v).length = 8 := by
  have hneg : ¬ v < 0 := by omega
  have hn : v.toNat < 100000000 := by omega
  have hle := toDigits10_length_le v.toNat hn
  simp only [pyFormat08d, hneg, if_false, List.length_append, List.length_replicate]
  omega

/-! ## Claims C1, C2, C5 -/

/-- C1: for every assembled line sequence of length at least 3 whose
second-to-last line starts with a carriage-return byte (13) and ends
with a newline byte (10), the response classifier returns exactly that
line with one leading carriage-return byte and one trailing newline byte
stripped and nothing else removed: the full second-to-last line is the
returned bytes re-wrapped in exactly those two bytes. -/
theorem claim_C1_classifier_payload (lines : List Line) (payload : Line)
    (h3 : 3 ≤ lines.length)
    (hp : lines[lines.length - 2]? = some payload)
    (hh : payload.head? = some 13) (hl : payload.getLast? = some 10) :
    Gpio.classify lines = .ok ((payload.drop 1).dropLast)
    ∧ payload = 13 :: (((payload.drop 1).dropLast) ++ [10]) := by
  have hidx : lines.length - 2 < lines.length := by omega
  have hget : lines.get ⟨lines.length - 2, hidx⟩ = payload := by
    have he := List.getElem?_eq_getElem hidx
    rw [he] at hp
    simpa using hp
  rw [List.get_eq_getElem] at hget
  refine ⟨?_, payload_decomp payload hh hl⟩
  unfold Gpio.classify
  rw [dif_pos h3]
  simp [hget, hh, hl]

/-- Witness for C1 at a concrete response: echo `A\n`, payload
`\r01\n`, prompt `>`. -/
theorem claim_C1_witness :
    Gpio.classify [[65, 10], [13, 48, 49, 10], [62]] = .ok [48, 49]
    ∧ ([13, 48, 49, 10] : Line)
        = 13 :: ((([13, 48, 49, 10] : Line).drop 1).dropLast ++ [10]) := by
  have h := claim_C1_classifier_payload [[65, 10], [13, 48, 49, 10], [62]]
    [13, 48, 49, 10] (by decide) (by decide) (by decide) (by decide)
  simpa using h

/-- C2: for every assembled line sequence with fewer than 3 lines, or
whose second-to-last line does not start with the carriage-return byte
or does not end with the newline byte, the response classifier raises
the fatal framing `AssertionError` and returns no payload value. -/
theorem claim_C2_classifier_fatal (lines : List Line)
    (h : lines.length < 3 ∨
      ∀ payload, lines[lines.length - 2]? = some payload →
        payload.head? ≠ some 13 ∨ payload.getLast? ≠ some 10) :
    Gpio.classify lines = .error .assertionError := by
  rcases h with h | h
  · unfold Gpio.classify
    rw [dif_neg (by omega)]
  · by_cases h3 : 3 ≤ lines.length
    · have hidx : lines.length - 2 < lines.length := by omega
      have hp := List.getElem?_eq_getElem hidx
      unfold Gpio.classify
      rw [dif_pos h3]
      rcases h _ hp with hh | hl
      · simp [hh]
      · by_cases hh2 : List.head? (lines.get ⟨lines.length - 2, hidx⟩) = some 13
        · rw [List.get_eq_getElem] at hh2
          simp [hh2, hl]
        · rw [List.get_eq_getElem] at hh2
          simp [hh2]
    · unfold Gpio.classify
      rw [dif_neg h3]

/-- Witness for C2 at a concrete two-line response. -/
theorem claim_C2_witness :
    Gpio.classify [[65, 10], [62]] = .error .assertionError :=
  claim_C2_classifier_fatal [[65, 10], [62]] (Or.inl (by decide))

/-- C5: whenever the polling loop of `GPIO._read`/`GPIO._consume`
terminates, the accumulated sequence is non-empty, equals the block of
non-empty lines right after the skipped leading empty reads, and is
exactly the ordered non-empty lines among the reads consumed: no line
dropped, duplicated or reordered. -/
theorem claim_C5_assembler_lines (s acc rem : List Line)
    (h : read_lines s = some (acc, rem)) :
    acc ≠ []
    ∧ acc = (s.dropWhile fun l => l.isEmpty).takeWhile (fun l => !l.isEmpty)
    ∧ ∃ consumed, s = consumed ++ rem
        ∧ acc = consumed.filter fun l => !l.isEmpty :=
  read_lines_some s acc rem h

/-- Witness for C5 at a concrete read sequence with leading empty reads,
a non-empty block, a terminating empty read and a leftover line. -/
theorem claim_C5_witness :
    ([[1], [2]] : List Line) ≠ []
    ∧ ([[1], [2]] : List Line)
        = (([[], [1], [2], [], [3]] : List Line).dropWhile fun l => l.isEmpty).takeWhile
            (fun l => !l.isEmpty)
    ∧ ∃ consumed, ([[], [1], [2], [], [3]] : List Line) = consumed ++ [[3]]
        ∧ ([[1], [2]] : List Line) = consumed.filter fun l => !l.isEmpty :=
  claim_C5_assembler_lines [[], [1], [2], [], [3]] [[1], [2]] [[3]] (by rfl)

/-! ## Write-trace helpers for the facade operations -/

theorem read_step_written (cmd : PyStr) (p : Port)
    (f : Except PyErr Line → Except PyErr Int) (r : Except PyErr Int) (p' : Port)
    (h : (Gpio._read (Gpio._write cmd p)).map (fun q => (f q.1, q.2)) = some (r, p')) :
    p'.written = p.written ++ [cmd ++ [ '\r' ]] := by
  cases hr : Gpio._read (Gpio._write cmd p) with
  | none => rw [hr] at h; simp at h
  | some q =>
    rw [hr] at h
    simp only [Option.map_some', Option.some.injEq, Prod.mk.injEq] at h
    have hw := read_resp_written _ q.1 q.2 hr
    rw [← h.2, hw]
    rfl

/-! ## Claims C6, C7, C8 -/

/-- C6: for every integer `v`, the aggregate register write sends exactly
the text `gpio writeall ` followed by the two lowercase hexadecimal
digits of `v` bitwise-ANDed with `0xFF`, terminated by one
carriage-return byte, as its only transport write; the response is only
drained (`_consume`), so no payload value is produced. -/
theorem claim_C6_writeall (v : Int) (p : Port) (r : Except PyErr Unit) (p' : Port)
    (h : Gpio.value_set v p = some (r, p')) :
    p'.written
      = p.written ++ [("gpio writeall ").data ++ hex2 (Int.land v 255).toNat ++ [ '\r' ]]
    ∧ ∀ c ∈ hex2 (Int.land v 255).toNat, c ∈ ("0123456789abcdef").data := by
  have h' : Gpio._consume
      (Gpio._write (("gpio writeall ").data ++ pyFormat02x (Int.land v 255)) p)
      = some (r, p') := h
  have hw := consume_written _ r p' h'
  constructor
  · rw [hw]
    show p.written ++ [(("gpio writeall ").data ++ pyFormat02x (Int.land v 255)) ++ [ '\r' ]]
      = p.written ++ [(("gpio writeall ").data ++ hex2 (Int.land v 255).toNat) ++ [ '\r' ]]
    rw [pyFormat02x_land255]
  · have hn : (Int.land v 255).toNat < 256 := by
      have h1 := land255_lt v
      have h2 := land255_nonneg v
      omega
    exact hex2_lowercase _ hn

/-- Witness for C6: writing `0x123` masks to `0x23` and sends
`gpio writeall 23` plus the carriage return. -/
theorem claim_C6_witness :
    (({ pending := [], written := [("gpio writeall 23\r").data] } : Port)).written
      = ([] : List PyStr)
        ++ [("gpio writeall ").data ++ hex2 (Int.land 291 255).toNat ++ [ '\r' ]]
    ∧ ∀ c ∈ hex2 (Int.land 291 255).toNat, c ∈ ("0123456789abcdef").data :=
  claim_C6_writeall 291 { pending := [[1], [2]], written := [] } (.ok ())
    { pending := [], written := [("gpio writeall 23\r").data] } (by rfl)

/-- C7: the identity setter sends `id set ` followed by an 8-character
field: an integer argument in the 8-digit range is zero-padded to 8
decimal digits (truncation and right-justification then change nothing),
and a string argument is truncated to its first 8 characters and
right-justified with spaces in an 8-character field. -/
theorem claim_C7_id_set (v : Int) (s : PyStr) (p : Port)
    (r1 r2 : Except PyErr Unit) (p1 p2 : Port)
    (h0 : 0 ≤ v) (h8 : v < 100000000) :
    (Gpio.id_set (.int v) p = some (r1, p1) →
      p1.written = p.written ++ [("id set ").data ++ pyFormat08d v ++ [ '\r' ]]
      ∧ (pyFormat08d v).length = 8)
    ∧ (Gpio.id_set (.str s) p = some (r2, p2) →
      p2.written = p.written
        ++ [("id set ").data
            ++ (List.replicate (8 - (s.take 8).length) ' ' ++ s.take 8) ++ [ '\r' ]]) := by
  have hL := pyFormat08d_length v h0 h8
  have hs1 : (pyFormat08d v).take 8 = pyFormat08d v := List.take_of_length_le (by omega)
  constructor
  · intro h
    have h' : Gpio._consume
        (Gpio._write (("id set ").data
          ++ (List.replicate (8 - ((pyFormat08d v).take 8).length) ' '
              ++ (pyFormat08d v).take 8)) p)
        = some (r1, p1) := h
    have hw := consume_written _ r1 p1 h'
    refine ⟨?_, hL⟩
    rw [hw]
    show p.written
        ++ [(("id set ").data
            ++ (List.replicate (8 - ((pyFormat08d v).take 8).length) ' '
                ++ (pyFormat08d v).take 8)) ++ [ '\r' ]]
      = p.written ++ [(("id set ").data ++ pyFormat08d v) ++ [ '\r' ]]
    rw [hs1, hL]
    simp
  · intro h
    have h' : Gpio._consume
        (Gpio._write (("id set ").data
          ++ (List.replicate (8 - (s.take 8).length) ' ' ++ s.take 8)) p)
        = some (r2, p2) := h
    have hw := consume_written _ r2 p2 h'
    rw [hw]
    rfl

/-- Witness for C7: `set-identity(0x123)` sends the field `00000291`,
and the 16-character string argument is truncated to `01234567`. -/
theorem claim_C7_witness :
    (({ pending := [], written := [("id set 00000291\r").data] } : Port)).written
      = ([] : List PyStr) ++ [("id set ").data ++ pyFormat08d 291 ++ [ '\r' ]]
    ∧ (pyFormat08d 291).length = 8
    ∧ (({ pending := [], written := [("id set 01234567\r").data] } : Port)).written
      = ([] : List PyStr)
        ++ [("id set ").data
            ++ (List.replicate (8 - ((("0123456789abcdef").data).take 8).length) ' '
                ++ (("0123456789abcdef").data).take 8) ++ [ '\r' ]] := by
  have h := claim_C7_id_set 291 (("0123456789abcdef").data)
    { pending := [[1], [2]], written := [] } (.ok ()) (.ok ())
    { pending := [], written := [("id set 00000291\r").data] }
    { pending := [], written := [("id set 01234567\r").data] }
    (by norm_num) (by norm_num)
  obtain ⟨h1, h2⟩ := h
  obtain ⟨ha, hb⟩ := h1 (by rfl)
  exact ⟨ha, hb, h2 (by rfl)⟩

/-- C8: for every channel 0-7 and assigned value, the digital-output
view keeps only the lowest bit of the value and sends `gpio set <ch>`
when that bit is 1 and `gpio clear <ch>` when it is 0, as its only
transport write, then drains the no-payload response. -/
theorem claim_C8_digit_out (ch bit : Int) (p : Port) (r : Except PyErr Unit) (p' : Port)
    (_hc0 : 0 ≤ ch) (_hc8 : ch < 8)
    (h : Gpio.digit_out_setitem ch bit p = some (r, p')) :
    p'.written = p.written
      ++ [("gpio ").data
          ++ (if Int.land bit 1 = 1 then ("set").data else ("clear").data)
          ++ (" ").data ++ py_str_int ch ++ [ '\r' ]] := by
  have h' : Gpio._consume
      (Gpio._write (("gpio ").data
        ++ (if pyBool (Int.land bit 1) then ("set").data else ("clear").data)
        ++ (" ").data ++ py_str_int ch) p)
      = some (r, p') := h
  have hw := consume_written _ r p' h'
  rw [hw]
  rcases land1_cases bit with hb | hb <;>
    simp [Gpio._write, pyBool, hb]

/-- Witness for C8: assigning 7 to channel 3 keeps bit 1 and sends
`gpio set 3`. -/
theorem claim_C8_witness :
    (({ pending := [], written := [("gpio set 3\r").data] } : Port)).written
      = ([] : List PyStr)
        ++ [("gpio ").data
            ++ (if Int.land 7 1 = 1 then ("set").data else ("clear").data)
            ++ (" ").data ++ py_str_int 3 ++ [ '\r' ]] :=
  claim_C8_digit_out 3 7 { pending := [[1], [2]], written := [] } (.ok ())
    { pending := [], written := [("gpio set 3\r").data] }
    (by norm_num) (by norm_num) (by rfl)

/-! ## Claim C3 (corrected) -/

/-- Counterexample to C3 as stated: indexing the digital-input view at
channel 8 does not raise any channel error and does perform transport
I/O — the command `gpio read 8` (plus carriage return) is written to the
transport and a parsed result is returned. -/
theorem claim_C3_counterexample :
    Gpio.digit_in_getitem 8 { pending := [[65, 10], [13, 48, 10], [62]], written := [] }
      = some (.ok 0, { pending := [], written := [("gpio read 8\r").data] })
    ∧ ([("gpio read 8\r").data] : List PyStr) ≠ [] :=
  ⟨by rfl, by decide⟩

/-- C3 amended: the indexed views perform no channel validation at all:
for every channel argument, in range or not, each view immediately
encodes the corresponding command with that channel and writes it to the
transport (no `ChannelOutOfRange` error exists in the code). -/
theorem claim_C3_amended_no_validation (ch bit : Int) (p : Port) :
    (∀ r p', Gpio.adc_in_getitem ch p = some (r, p') →
      p'.written = p.written ++ [("adc read ").data ++ py_str_int ch ++ [ '\r' ]])
    ∧ (∀ r p', Gpio.digit_in_getitem ch p = some (r, p') →
      p'.written = p.written ++ [("gpio read ").data ++ py_str_int ch ++ [ '\r' ]])
    ∧ (∀ r p', Gpio.digit_out_setitem ch bit p = some (r, p') →
      ∃ c, (c = ("set").data ∨ c = ("clear").data)
        ∧ p'.written = p.written
            ++ [("gpio ").data ++ c ++ (" ").data ++ py_str_int ch ++ [ '\r' ]]) := by
  refine ⟨?_, ?_, ?_⟩
  · intro r p' h
    exact read_step_written (("adc read ").data ++ py_str_int ch) p
      (fun e => e.bind (pyIntParse 10)) r p' h
  · intro r p' h
    exact read_step_written (("gpio read ").data ++ py_str_int ch) p
      (fun e => e.bind (pyIntParse 10)) r p' h
  · intro r p' h
    refine ⟨if pyBool (Int.land bit 1) then ("set").data else ("clear").data, ?_, ?_⟩
    · by_cases hb : pyBool (Int.land bit 1) <;> simp [hb]
    · have h' : Gpio._consume
          (Gpio._write (("gpio ").data
            ++ (if pyBool (Int.land bit 1) then ("set").data else ("clear").data)
            ++ (" ").data ++ py_str_int ch) p)
          = some (r, p') := h
      have hw := consume_written _ r p' h'
      rw [hw]
      rfl

/-- Witness for the amended C3 at the out-of-range channel 8. -/
theorem claim_C3_amended_witness :
    (({ pending := [], written := [("gpio read 8\r").data] } : Port)).written
      = ([] : List PyStr) ++ [("gpio read ").data ++ py_str_int 8 ++ [ '\r' ]] :=
  (claim_C3_amended_no_validation 8 0
      { pending := [[65, 10], [13, 48, 10], [62]], written := [] }).2.1
    (.ok 0) { pending := [], written := [("gpio read 8\r").data] } (by rfl)

/-! ## Claims C9, C10 -/

/-- C9: indexing a `GPIO` object itself with a non-int key, or an int
channel outside `range(8)`, silently returns `None` (getter) or does
nothing (setter): no exception, and the transport state is untouched. -/
theorem claim_C9_gpio_indexing (k : Gpio.Key) (bit : Int) (p : Port)
    (h : ∀ n, k = Gpio.Key.int n → n < 0 ∨ 8 ≤ n) :
    Gpio.getitem k p = some (.ok none, p)
    ∧ Gpio.setitem k bit p = some (.ok (), p) := by
  cases k with
  | other => exact ⟨rfl, rfl⟩
  | int n =>
    have hn := h n rfl
    have hc : ¬ (0 ≤ n ∧ n < 8) := by omega
    constructor
    · simp only [Gpio.getitem]
      rw [if_neg hc]
    · simp only [Gpio.setitem]
      rw [if_neg hc]

/-- Witness for C9 at channel 8. -/
theorem claim_C9_witness :
    Gpio.getitem (Gpio.Key.int 8) { pending := [], written := [] }
      = some (.ok none, { pending := [], written := [] })
    ∧ Gpio.setitem (Gpio.Key.int 8) 1 { pending := [], written := [] }
      = some (.ok (), { pending := [], written := [] }) :=
  claim_C9_gpio_indexing (Gpio.Key.int 8) 1 { pending := [], written := [] }
    (by intro n hn; injection hn with h2; omega)

/-- C10: for an int channel in 0-7, `GPIO.__getitem__` issues the
aggregate `gpio readall` command (not `gpio read <ch>`) and returns bit
`channel` of the parsed register value, `value >> channel & 1`. -/
theorem claim_C10_getitem_bit (ch : Int) (p : Port) (v : Int) (p' : Port)
    (hc0 : 0 ≤ ch) (hc8 : ch < 8)
    (h : Gpio.value_get p = some (.ok v, p')) :
    Gpio.getitem (Gpio.Key.int ch) p
      = some (.ok (some (Int.land (py_rshift v ch) 1)), p')
    ∧ p'.written = p.written ++ [("gpio readall").data ++ [ '\r' ]] := by
  constructor
  · simp only [Gpio.getitem]
    rw [if_pos ⟨hc0, hc8⟩, h]
    rfl
  · exact read_step_written (("gpio readall").data) p
      (fun e => e.bind (pyIntParse 16)) (.ok v) p' h

/-- Witness for C10: a `readall` payload of `23` (hex, value 35) makes
channel 0 read bit 1. -/
theorem claim_C10_witness :
    Gpio.getitem (Gpio.Key.int 0)
        { pending := [[65, 10], [13, 50, 51, 10], [62]], written := [] }
      = some (.ok (some (Int.land (py_rshift 35 0) 1)),
          { pending := [], written := [("gpio readall\r").data] })
    ∧ (({ pending := [], written := [("gpio readall\r").data] } : Port)).written
      = ([] : List PyStr) ++ [("gpio readall").data ++ [ '\r' ]] :=
  claim_C10_getitem_bit 0
    { pending := [[65, 10], [13, 50, 51, 10], [62]], written := [] } 35
    { pending := [], written := [("gpio readall\r").data] }
    (by norm_num) (by norm_num) (by rfl)

/-! ## Claim C4 (code bug) -/

/-- C4 evaluated on the code: a protocol error raised by the session
body of `with open(port) as g:` is swallowed by the context manager's
bare `except: pass` — the `with` statement completes without a value
instead of re-raising, and the CLI process exits with status 0, not a
non-zero status. -/
theorem claim_C4_session_swallows (e : PyErr) :
    open_session (Except.error e : Except PyErr Int) = .completed none
    ∧ cli_exit (Except.error e : Except PyErr Int) = 0 :=
  ⟨rfl, rfl⟩
